import Mathlib

/-!
Verification of the image edit engine of AetherLens
(`src/components/ImageEditor.tsx`).

The editor keeps a linear history of `EditorState` snapshots with a cursor
(`historyIndex`) plus a working state (`currentState`) that may drift from
the history during slider drags.  We embed the React component's state and
its handlers (`pushToHistory`, `handleUndo`, `handleRedo`,
`updateCurrentState`, `commitChange`, `handleSave`) as pure functions on a
`Session` record.  React's "sync" effect (`setCurrentState(history[historyIndex])`,
which fires whenever `history` or `historyIndex` changes) is folded into the
operations that change those two fields, matching the component's observable
behaviour between events.

Numbers are modelled as exact rationals (`ℚ`) and the rotation as an
integer (`ℤ`); the geometry of the draw effect is embedded in exact
arithmetic.
-/

namespace AetherLens

/-- The `cropRatio` union type of `EditorState` in the source:
`'original' | '1:1' | '4:3' | '16:9'`. -/
inductive CropRatio where
  | original
  | ratio1x1
  | ratio4x3
  | ratio16x9
  deriving DecidableEq, Repr

/-- `EditorState` from the source: brightness/contrast/saturation
percentages, cumulative rotation in degrees, crop ratio and a filter
preset name (a plain string in the source). -/
structure EditorState where
  brightness : ℚ
  contrast : ℚ
  saturation : ℚ
  rotation : ℤ
  cropRatio : CropRatio
  filterPreset : String
  deriving DecidableEq, Repr

/-- `initialState` from the source. -/
def initialState : EditorState :=
  { brightness := 100, contrast := 100, saturation := 100,
    rotation := 0, cropRatio := CropRatio.original, filterPreset := "none" }

/-- A `Partial<EditorState>` object: each field is present or absent.
Models the argument of `updateCurrentState` and `commitChange`. -/
structure Patch where
  brightness : Option ℚ
  contrast : Option ℚ
  saturation : Option ℚ
  rotation : Option ℤ
  cropRatio : Option CropRatio
  filterPreset : Option String
  deriving DecidableEq, Repr

/-- The empty patch `{}` (the default argument of `commitChange`). -/
def noPatch : Patch :=
  { brightness := none, contrast := none, saturation := none,
    rotation := none, cropRatio := none, filterPreset := none }

/-- JavaScript spread merge `{ ...prev, ...patch }`: a present field of
the patch overrides the corresponding field of `prev`. -/
def merge (prev : EditorState) (p : Patch) : EditorState :=
  { brightness := p.brightness.getD prev.brightness,
    contrast := p.contrast.getD prev.contrast,
    saturation := p.saturation.getD prev.saturation,
    rotation := p.rotation.getD prev.rotation,
    cropRatio := p.cropRatio.getD prev.cropRatio,
    filterPreset := p.filterPreset.getD prev.filterPreset }

/-- The component's history-related state: the `history` array, the
cursor `historyIndex` and the working state `currentState`. -/
structure Session where
  history : List EditorState
  historyIndex : ℕ
  currentState : EditorState
  deriving DecidableEq, Repr

/-- The reset-on-open effect: `setHistory([initialState])`,
`setHistoryIndex(0)`, `setCurrentState(initialState)`. -/
def openSession : Session :=
  { history := [initialState], historyIndex := 0, currentState := initialState }

/-- `pushToHistory`: `history.slice(0, historyIndex + 1)` then push the
new state, cursor to the new last index.  The sync effect then sets
`currentState` to `history[historyIndex]`, i.e. the pushed state. -/
def pushToHistory (s : Session) (newState : EditorState) : Session :=
  let newHistory := s.history.take (s.historyIndex + 1) ++ [newState]
  { history := newHistory, historyIndex := newHistory.length - 1,
    currentState := newState }

/-- `handleUndo`: decrement the cursor only when it is positive; the sync
effect then replaces `currentState` with the snapshot at the new cursor.
When the cursor is `0` nothing changes (the effect does not re-fire), so
the working state is kept as-is. -/
def handleUndo (s : Session) : Session :=
  if 0 < s.historyIndex then
    { history := s.history, historyIndex := s.historyIndex - 1,
      currentState := s.history.getD (s.historyIndex - 1) initialState }
  else s

/-- `handleRedo`: increment the cursor only when it is below the last
index; the sync effect then replaces `currentState` with the snapshot at
the new cursor. -/
def handleRedo (s : Session) : Session :=
  if s.historyIndex < s.history.length - 1 then
    { history := s.history, historyIndex := s.historyIndex + 1,
      currentState := s.history.getD (s.historyIndex + 1) initialState }
  else s

/-- `updateCurrentState`: `setCurrentState(prev => ({ ...prev, ...partial }))`.
History and cursor untouched. -/
def updateCurrentState (s : Session) (p : Patch) : Session :=
  { s with currentState := merge s.currentState p }

/-- `commitChange`: merge the patch onto `currentState`, set
`currentState` to the result and push it to history. -/
def commitChange (s : Session) (p : Patch) : Session :=
  pushToHistory { s with currentState := merge s.currentState p }
    (merge s.currentState p)

/-- Sessions reachable from opening the editor by any sequence of
commits, live updates, undos and redos. -/
inductive Reachable : Session → Prop where
  | openS : Reachable openSession
  | commit {s : Session} (p : Patch) : Reachable s → Reachable (commitChange s p)
  | live {s : Session} (p : Patch) : Reachable s → Reachable (updateCurrentState s p)
  | undo {s : Session} : Reachable s → Reachable (handleUndo s)
  | redo {s : Session} : Reachable s → Reachable (handleRedo s)

/-! ## Geometry of the draw effect -/

/-- A source raster: only its natural dimensions matter to the geometry. -/
structure Raster where
  naturalWidth : ℚ
  naturalHeight : ℚ
  deriving DecidableEq, Repr

/-- The crop window and canvas bounding box computed by the draw effect. -/
structure Geometry where
  cropX : ℚ
  cropY : ℚ
  cropW : ℚ
  cropH : ℚ
  canvasWidth : ℚ
  canvasHeight : ℚ
  deriving DecidableEq, Repr

/-- The two components obtained from `cropRatio.split(':').map(Number)`
for the non-original ratios. -/
def ratioComponents : CropRatio → ℚ × ℚ
  | CropRatio.original => (1, 1)
  | CropRatio.ratio1x1 => (1, 1)
  | CropRatio.ratio4x3 => (4, 3)
  | CropRatio.ratio16x9 => (16, 9)

/-- The non-`original` branch of the crop computation (source lines
118–132): `(cropX, cropY, cropW, cropH)` for a target ratio `rw/rh`.
The source compares `srcRatio > targetRatio`. -/
def cropWindow (srcW srcH rw rh : ℚ) : ℚ × ℚ × ℚ × ℚ :=
  let targetRatio := rw / rh
  let srcRatio := srcW / srcH
  if targetRatio < srcRatio then
    let cropW := srcH * targetRatio
    ((srcW - cropW) / 2, 0, cropW, srcH)
  else
    let cropH := srcW / targetRatio
    (0, (srcH - cropH) / 2, srcW, cropH)

/-- Steps 1 and 2 of the draw effect (source lines 110–139): compute the
crop window from the crop ratio, then size the canvas, swapping width and
height when `rotation % 180 !== 0` (for the `!== 0` test JavaScript's
remainder and `Int.emod` agree: both vanish exactly on multiples of 180). -/
def resolveGeometry (srcW srcH : ℚ) (cropRatio : CropRatio) (rotation : ℤ) :
    Geometry :=
  let c :=
    if cropRatio = CropRatio.original then
      ((0 : ℚ), (0 : ℚ), srcW, srcH)
    else
      let (rw, rh) := ratioComponents cropRatio
      cropWindow srcW srcH rw rh
  let isRotated := rotation % 180 ≠ 0
  { cropX := c.1, cropY := c.2.1, cropW := c.2.2.1, cropH := c.2.2.2,
    canvasWidth := if isRotated then c.2.2.2 else c.2.2.1,
    canvasHeight := if isRotated then c.2.2.1 else c.2.2.2 }

/-- Modelled from the spec's reference algorithm (§4.3 GeometryResolver),
stated in its own words: full source at the origin for `original`;
otherwise compare `W/H` with the target ratio `r`, cropping the wider
dimension and centering; finally swap the bounding box exactly when
`rotationDegrees mod 180 != 0`.  To be compared with `resolveGeometry`. -/
def specGeometry (W H : ℚ) (ratio : CropRatio) (rotationDegrees : ℤ) : Geometry :=
  let swap := rotationDegrees % 180 ≠ 0
  if ratio = CropRatio.original then
    { cropX := 0, cropY := 0, cropW := W, cropH := H,
      canvasWidth := if swap then H else W,
      canvasHeight := if swap then W else H }
  else
    let (rw, rh) := ratioComponents ratio
    let r := rw / rh
    let c :=
      if W / H > r then (((W - H * r) / 2 : ℚ), (0 : ℚ), H * r, H)
      else ((0 : ℚ), ((H - W / r) / 2 : ℚ), W, W / r)
    { cropX := c.1, cropY := c.2.1, cropW := c.2.2.1, cropH := c.2.2.2,
      canvasWidth := if swap then c.2.2.2 else c.2.2.1,
      canvasHeight := if swap then c.2.2.1 else c.2.2.2 }

/-! ## Filter chain of the draw effect -/

/-- One CSS filter function appearing in the `filterString` built by the
draw effect (percentages and degrees kept as exact rationals). -/
inductive FilterOp where
  | brightness (pct : ℚ)
  | contrast (pct : ℚ)
  | saturate (pct : ℚ)
  | grayscale (pct : ℚ)
  | sepia (pct : ℚ)
  | invert (pct : ℚ)
  | hueRotate (deg : ℚ)
  | opacity (pct : ℚ)
  deriving DecidableEq, Repr

/-- The ordered base tonal stage of the chain: the initial value of the
draw effect's `filterString`,
`brightness(..%) contrast(..%) saturate(..%)`. -/
def baseStage (s : EditorState) : List FilterOp :=
  [FilterOp.brightness s.brightness, FilterOp.contrast s.contrast,
    FilterOp.saturate s.saturation]

/-- The `filterString` of the draw effect as an ordered list of filter
functions: the base `brightness(..) contrast(..) saturate(..)` followed by
whatever the `switch (filterPreset)` appends with `+=` (unlisted presets,
including `none`, add nothing). -/
def filterChain (s : EditorState) : List FilterOp :=
  if s.filterPreset = "grayscale" then baseStage s ++ [FilterOp.grayscale 100]
  else if s.filterPreset = "sepia" then baseStage s ++ [FilterOp.sepia 100]
  else if s.filterPreset = "invert" then baseStage s ++ [FilterOp.invert 100]
  else if s.filterPreset = "warm" then
    baseStage s ++ [FilterOp.sepia 30, FilterOp.saturate 140]
  else if s.filterPreset = "cool" then
    baseStage s ++ [FilterOp.hueRotate 180, FilterOp.opacity 90]
  else if s.filterPreset = "vintage" then
    baseStage s ++ [FilterOp.sepia 40, FilterOp.saturate 150,
      FilterOp.contrast 90, FilterOp.brightness 110]
  else if s.filterPreset = "bw-film" then
    baseStage s ++ [FilterOp.grayscale 100, FilterOp.contrast 120,
      FilterOp.brightness 90]
  else if s.filterPreset = "neo-noir" then
    baseStage s ++ [FilterOp.contrast 140, FilterOp.brightness 80,
      FilterOp.saturate 80]
  else if s.filterPreset = "polaroid" then
    baseStage s ++ [FilterOp.contrast 80, FilterOp.brightness 120,
      FilterOp.saturate 120, FilterOp.sepia 20]
  else if s.filterPreset = "dramatic" then
    baseStage s ++ [FilterOp.contrast 150, FilterOp.brightness 90]
  else baseStage s

/-- The fixed per-preset suffix table: the secondary tonal operations each
preset name appends after the base stage. -/
def presetSuffix (preset : String) : List FilterOp :=
  if preset = "grayscale" then [FilterOp.grayscale 100]
  else if preset = "sepia" then [FilterOp.sepia 100]
  else if preset = "invert" then [FilterOp.invert 100]
  else if preset = "warm" then [FilterOp.sepia 30, FilterOp.saturate 140]
  else if preset = "cool" then [FilterOp.hueRotate 180, FilterOp.opacity 90]
  else if preset = "vintage" then
    [FilterOp.sepia 40, FilterOp.saturate 150, FilterOp.contrast 90,
      FilterOp.brightness 110]
  else if preset = "bw-film" then
    [FilterOp.grayscale 100, FilterOp.contrast 120, FilterOp.brightness 90]
  else if preset = "neo-noir" then
    [FilterOp.contrast 140, FilterOp.brightness 80, FilterOp.saturate 80]
  else if preset = "polaroid" then
    [FilterOp.contrast 80, FilterOp.brightness 120, FilterOp.saturate 120,
      FilterOp.sepia 20]
  else if preset = "dramatic" then [FilterOp.contrast 150, FilterOp.brightness 90]
  else []

/-- The filter presets offered by the editor (the `filters` array). -/
def knownPresets : List String :=
  ["none", "grayscale", "sepia", "invert", "warm", "cool", "vintage",
    "bw-film", "neo-noir", "polaroid", "dramatic"]

/-! ## Rendering and export -/

/-- What one run of the draw effect paints: the resolved geometry, the
active filter chain and the rotation applied to the drawing frame. -/
structure RenderSpec where
  geom : Geometry
  filter : List FilterOp
  rotationDeg : ℤ
  deriving DecidableEq, Repr

/-- The draw effect: renders `currentState` of the session onto the
canvas. -/
def drawCanvas (img : Raster) (s : EditorState) : RenderSpec :=
  { geom := resolveGeometry img.naturalWidth img.naturalHeight s.cropRatio s.rotation,
    filter := filterChain s,
    rotationDeg := s.rotation }

/-- The value produced by `canvas.toDataURL('image/jpeg', 0.92)`: the
rendered canvas contents plus the encoding parameters. -/
structure ExportResult where
  rendered : RenderSpec
  mime : String
  quality : ℚ
  deriving DecidableEq, Repr

/-- `handleSave`: encode the canvas — whose contents the draw effect
painted from `currentState` — as JPEG at quality `0.92`. -/
def handleSave (img : Raster) (s : Session) : ExportResult :=
  { rendered := drawCanvas img s.currentState,
    mime := "image/jpeg",
    quality := 92 / 100 }

/-! ## Concrete inputs used in scenarios and counterexamples -/

/-- The patch `{ brightness: 120 }`. -/
def pB120 : Patch := { noPatch with brightness := some 120 }

/-- The patch `{ contrast: 80 }`. -/
def pC80 : Patch := { noPatch with contrast := some 80 }

/-- The patch `{ saturation: 500 }`. -/
def pSat500 : Patch := { noPatch with saturation := some 500 }

/-- A patch carrying a filter preset outside the editor's enumerated set. -/
def pFoo : Patch := { noPatch with filterPreset := some "foo" }

/-- An 800 × 600 source raster. -/
def img800x600 : Raster := { naturalWidth := 800, naturalHeight := 600 }

/-! ## Theorems -/

/-- C1: committing with the cursor strictly before the last index first
discards all snapshots after the cursor, then appends the new state, and
puts the cursor at the new last index; concretely, `commit(s1)…commit(s5)`,
two `undo()`s and `commit(s6)` leave the history `[default, s1, s2, s3, s6]`
and a further `redo()` changes nothing. -/
theorem c1_branch_truncation (s : Session) (st s1 s2 s3 s4 s5 s6 : EditorState)
    (h : s.historyIndex < s.history.length - 1) :
    ((pushToHistory s st).history = s.history.take (s.historyIndex + 1) ++ [st] ∧
      (pushToHistory s st).historyIndex =
        (pushToHistory s st).history.length - 1) ∧
    (pushToHistory (handleUndo (handleUndo
        (pushToHistory (pushToHistory (pushToHistory (pushToHistory
          (pushToHistory openSession s1) s2) s3) s4) s5))) s6).history =
      [initialState, s1, s2, s3, s6] ∧
    handleRedo (pushToHistory (handleUndo (handleUndo
        (pushToHistory (pushToHistory (pushToHistory (pushToHistory
          (pushToHistory openSession s1) s2) s3) s4) s5))) s6) =
      pushToHistory (handleUndo (handleUndo
        (pushToHistory (pushToHistory (pushToHistory (pushToHistory
          (pushToHistory openSession s1) s2) s3) s4) s5))) s6 := by
  have e1 : pushToHistory openSession s1 = ⟨[initialState, s1], 1, s1⟩ := rfl
  have e2 : pushToHistory ⟨[initialState, s1], 1, s1⟩ s2 =
      ⟨[initialState, s1, s2], 2, s2⟩ := rfl
  have e3 : pushToHistory ⟨[initialState, s1, s2], 2, s2⟩ s3 =
      ⟨[initialState, s1, s2, s3], 3, s3⟩ := rfl
  have e4 : pushToHistory ⟨[initialState, s1, s2, s3], 3, s3⟩ s4 =
      ⟨[initialState, s1, s2, s3, s4], 4, s4⟩ := rfl
  have e5 : pushToHistory ⟨[initialState, s1, s2, s3, s4], 4, s4⟩ s5 =
      ⟨[initialState, s1, s2, s3, s4, s5], 5, s5⟩ := rfl
  have e6 : handleUndo ⟨[initialState, s1, s2, s3, s4, s5], 5, s5⟩ =
      ⟨[initialState, s1, s2, s3, s4, s5], 4, s4⟩ := rfl
  have e7 : handleUndo ⟨[initialState, s1, s2, s3, s4, s5], 4, s4⟩ =
      ⟨[initialState, s1, s2, s3, s4, s5], 3, s3⟩ := rfl
  have e8 : pushToHistory ⟨[initialState, s1, s2, s3, s4, s5], 3, s3⟩ s6 =
      ⟨[initialState, s1, s2, s3, s6], 4, s6⟩ := rfl
  have e9 : handleRedo ⟨[initialState, s1, s2, s3, s6], 4, s6⟩ =
      ⟨[initialState, s1, s2, s3, s6], 4, s6⟩ := rfl
  refine ⟨⟨rfl, rfl⟩, ?_, ?_⟩
  · rw [e1, e2, e3, e4, e5, e6, e7, e8]
  · rw [e1, e2, e3, e4, e5, e6, e7, e8, e9]

/-- Witness for C1 at a concrete session whose cursor sits strictly before
the last history index. -/
theorem c1_branch_truncation_witness :
    (handleUndo (pushToHistory openSession initialState)).historyIndex <
      (handleUndo (pushToHistory openSession initialState)).history.length - 1 ∧
    ((pushToHistory (handleUndo (pushToHistory openSession initialState))
        initialState).history =
      (handleUndo (pushToHistory openSession initialState)).history.take
        ((handleUndo (pushToHistory openSession initialState)).historyIndex + 1)
        ++ [initialState] ∧
      (pushToHistory (handleUndo (pushToHistory openSession initialState))
        initialState).historyIndex =
      (pushToHistory (handleUndo (pushToHistory openSession initialState))
        initialState).history.length - 1) :=
  ⟨by decide,
    (c1_branch_truncation (handleUndo (pushToHistory openSession initialState))
      initialState initialState initialState initialState initialState
      initialState initialState (by decide)).1⟩

/-- `handleUndo` is the identity when the cursor is `0` (for any session). -/
lemma handleUndo_at_zero (s : Session) (h : s.historyIndex = 0) :
    handleUndo s = s := by
  simp [handleUndo, h]

/-- `handleRedo` is the identity when the cursor is at the last index
(for any session). -/
lemma handleRedo_at_end (s : Session) (h : s.historyIndex = s.history.length - 1) :
    handleRedo s = s := by
  simp [handleRedo, h]

/-- Pushing preserves the history invariant: the new history is nonempty,
the cursor lands strictly below its length, and the head snapshot is kept
(the truncation `slice(0, historyIndex + 1)` always retains index 0). -/
lemma pushToHistory_inv (s : Session) (st : EditorState)
    (hhead : s.history.head? = some initialState) :
    (pushToHistory s st).history ≠ [] ∧
      (pushToHistory s st).historyIndex < (pushToHistory s st).history.length ∧
      (pushToHistory s st).history.head? = some initialState := by
  rcases s with ⟨hist, idx, cur⟩
  rcases hist with _ | ⟨a, t⟩
  · simp at hhead
  · refine ⟨by simp [pushToHistory], ?_, ?_⟩
    · show (List.take (idx + 1) (a :: t) ++ [st]).length - 1 <
        (List.take (idx + 1) (a :: t) ++ [st]).length
      have hpos : 0 < (List.take (idx + 1) (a :: t) ++ [st]).length := by simp
      omega
    · show (List.take (idx + 1) (a :: t) ++ [st]).head? = some initialState
      rw [List.take_succ_cons, List.cons_append, List.head?_cons]
      simpa using hhead

/-- The inductive invariant of reachable sessions: nonempty history,
cursor strictly below the length, default state at index 0. -/
lemma reachable_inv {s : Session} (h : Reachable s) :
    s.history ≠ [] ∧ s.historyIndex < s.history.length ∧
      s.history.head? = some initialState := by
  induction h with
  | openS => exact ⟨by simp [openSession], by simp [openSession], rfl⟩
  | commit p _ ih =>
    obtain ⟨hne, _, hhead⟩ := ih
    exact pushToHistory_inv _ _ hhead
  | live p _ ih => exact ih
  | undo _ ih =>
    obtain ⟨hne, hlt, hhead⟩ := ih
    unfold handleUndo
    split
    · refine ⟨hne, ?_, hhead⟩
      dsimp only
      omega
    · exact ⟨hne, hlt, hhead⟩
  | redo _ ih =>
    obtain ⟨hne, hlt, hhead⟩ := ih
    unfold handleRedo
    split
    · refine ⟨hne, ?_, hhead⟩
      dsimp only
      omega
    · exact ⟨hne, hlt, hhead⟩

/-- C2: in every session reachable from opening the editor, the cursor is
clamped to `[0, length − 1]`, the snapshot at index 0 is always the
default `initialState` (never removed), and `undo` at cursor 0 as well as
`redo` at the last index leave the session — history, cursor and working
state — completely unchanged, so neither can fail. -/
theorem c2_history_invariants (s : Session) (h : Reachable s) :
    s.history ≠ [] ∧
    s.historyIndex ≤ s.history.length - 1 ∧
    s.history.head? = some initialState ∧
    (s.historyIndex = 0 → handleUndo s = s) ∧
    (s.historyIndex = s.history.length - 1 → handleRedo s = s) := by
  obtain ⟨hne, hlt, hhead⟩ := reachable_inv h
  exact ⟨hne, by omega, hhead, fun h0 => handleUndo_at_zero s h0,
    fun hend => handleRedo_at_end s hend⟩

/-- Witness for C2 at the freshly opened session. -/
theorem c2_history_invariants_witness :
    Reachable openSession ∧
    (openSession.history ≠ [] ∧
      openSession.historyIndex ≤ openSession.history.length - 1 ∧
      openSession.history.head? = some initialState ∧
      (openSession.historyIndex = 0 → handleUndo openSession = openSession) ∧
      (openSession.historyIndex = openSession.history.length - 1 →
        handleRedo openSession = openSession)) :=
  ⟨Reachable.openS, c2_history_invariants openSession Reachable.openS⟩

/-- C3 counterexample: open the editor (history `[initialState]`, cursor
0), apply the live update `{ brightness: 120 }`, then `undo()`.  Contrary
to the claim, the session does not return to the state before the live
update: `handleUndo` at cursor 0 changes nothing, so the live brightness
120 survives the undo. -/
theorem c3_live_update_cex :
    (handleUndo (updateCurrentState openSession pB120)).currentState ≠
      openSession.currentState := by
  decide

/-- C3 amended: `liveUpdate(partial)` merges the partial onto the current
working state — which equals `history[cursor]` whenever no live state is
active — and leaves history and cursor unchanged; a subsequent `undo()`
with cursor > 0 discards the live state and moves to `history[cursor−1]`,
while at cursor 0 the undo is a complete no-op and the live state is
retained, not discarded. -/
theorem c3_live_update_amended (s : Session) (p : Patch) :
    (updateCurrentState s p).history = s.history ∧
    (updateCurrentState s p).historyIndex = s.historyIndex ∧
    (s.currentState = s.history.getD s.historyIndex initialState →
      (updateCurrentState s p).currentState =
        merge (s.history.getD s.historyIndex initialState) p) ∧
    (0 < s.historyIndex →
      handleUndo (updateCurrentState s p) =
        { history := s.history, historyIndex := s.historyIndex - 1,
          currentState := s.history.getD (s.historyIndex - 1) initialState }) ∧
    (s.historyIndex = 0 →
      handleUndo (updateCurrentState s p) = updateCurrentState s p) := by
  refine ⟨rfl, rfl, ?_, ?_, ?_⟩
  · intro hsync
    simp [updateCurrentState, hsync]
  · intro hpos
    simp [handleUndo, updateCurrentState, hpos]
  · intro h0
    simp [handleUndo, updateCurrentState, h0]

/-- Witness for C3 amended at the freshly opened session and the
`{ brightness: 120 }` patch (cursor 0: the inner hypotheses of the no-drift
and the cursor-0 conjuncts hold there). -/
theorem c3_live_update_amended_witness :
    (updateCurrentState openSession pB120).history = openSession.history ∧
    (updateCurrentState openSession pB120).currentState =
      merge (openSession.history.getD openSession.historyIndex initialState)
        pB120 ∧
    handleUndo (updateCurrentState openSession pB120) =
      updateCurrentState openSession pB120 :=
  ⟨(c3_live_update_amended openSession pB120).1,
    (c3_live_update_amended openSession pB120).2.2.1 rfl,
    (c3_live_update_amended openSession pB120).2.2.2.2 rfl⟩

/-- C4 counterexample: with a live state active (brightness 120 overlaid
on the default snapshot), `commitChange({ contrast: 80 })` persists a
state merged onto the stale live state (brightness 120), not onto
`history[cursor]` (brightness 100) as the claim requires. -/
theorem c4_commit_merge_cex :
    (commitChange (updateCurrentState openSession pB120) pC80).currentState ≠
      merge ((updateCurrentState openSession pB120).history.getD
        (updateCurrentState openSession pB120).historyIndex initialState)
        pC80 := by
  decide

/-- C4 amended: `commitChange(partial)` merges the partial onto the
current working state — the live state when one is active, not
`history[cursor]` — appends the result after truncating the redo branch,
puts the cursor at the new last index, and the committed snapshot becomes
the working (rendered) state. -/
theorem c4_commit_merges_live (s : Session) (p : Patch) :
    (commitChange s p).currentState = merge s.currentState p ∧
    (commitChange s p).history =
      s.history.take (s.historyIndex + 1) ++ [merge s.currentState p] ∧
    (commitChange s p).historyIndex = (commitChange s p).history.length - 1 ∧
    (commitChange s p).history.getLast? = some ((commitChange s p).currentState) := by
  refine ⟨rfl, rfl, rfl, ?_⟩
  simp [commitChange, pushToHistory]

/-- C5 counterexample: with a live state active (brightness 120),
`handleSave` encodes the canvas rendered from the live working state, not
from `history[cursor]` as the claim requires: the two renders differ. -/
theorem c5_export_cex :
    (handleSave img800x600 (updateCurrentState openSession pB120)).rendered ≠
      drawCanvas img800x600
        ((updateCurrentState openSession pB120).history.getD
          (updateCurrentState openSession pB120).historyIndex initialState) := by
  decide

/-- C5 amended: `handleSave` encodes the canvas as JPEG at fixed quality
0.92 (92%), and the canvas contents are rendered from the current working
state — the live state when one is active — so export reflects rather
than ignores a live state; only when no live state is active does it
render `history[cursor]`. -/
theorem c5_export_quality (img : Raster) (s : Session) :
    (handleSave img s).mime = "image/jpeg" ∧
    (handleSave img s).quality = 92 / 100 ∧
    (handleSave img s).rendered = drawCanvas img s.currentState ∧
    (s.currentState = s.history.getD s.historyIndex initialState →
      (handleSave img s).rendered =
        drawCanvas img (s.history.getD s.historyIndex initialState)) := by
  refine ⟨rfl, rfl, rfl, ?_⟩
  intro hsync
  simp [handleSave, hsync]

/-- Witness for C5 at the freshly opened session (no live state, so the
inner hypothesis holds definitionally). -/
theorem c5_export_quality_witness :
    (handleSave img800x600 openSession).quality = 92 / 100 ∧
    (handleSave img800x600 openSession).rendered =
      drawCanvas img800x600
        (openSession.history.getD openSession.historyIndex initialState) :=
  ⟨(c5_export_quality img800x600 openSession).2.1,
    (c5_export_quality img800x600 openSession).2.2.2 rfl⟩

/-- Appending a fixed list distributes over an `if`. -/
lemma append_ite {α : Type} (b : List α) (c : Prop) [Decidable c]
    (x y : List α) :
    b ++ (if c then x else y) = if c then b ++ x else b ++ y := by
  split <;> rfl

/-- The filter chain always decomposes as the base tonal stage followed
by the preset's fixed suffix. -/
lemma filterChain_eq (st : EditorState) :
    filterChain st = baseStage st ++ presetSuffix st.filterPreset := by
  unfold filterChain presetSuffix
  rw [append_ite, append_ite, append_ite, append_ite, append_ite, append_ite,
    append_ite, append_ite, append_ite, append_ite, List.append_nil]

/-- The third entry of every filter chain is the saturate stage carrying
the state's saturation verbatim. -/
lemma filterChain_getD_two (st : EditorState) :
    (filterChain st).getD 2 (FilterOp.saturate 0) =
      FilterOp.saturate st.saturation := by
  rw [filterChain_eq, List.getD_append _ _ _ _ (by simp [baseStage])]
  rfl

/-- C6 counterexample: `liveUpdate({ saturation: 500 })` on the freshly
opened session stores saturation 500, not the claimed clamped 200. -/
theorem c6_clamping_cex :
    (updateCurrentState openSession pSat500).currentState.saturation ≠ 200 := by
  decide

/-- C6 amended: out-of-range numeric values in partial updates are not
clamped anywhere: both the live update and the commit path store the
value verbatim, and the rendered filter chain carries it verbatim as its
saturate stage; in particular `liveUpdate({saturation: 500})` is stored
and rendered as saturation 500.  Range enforcement exists only in the
bounded UI slider attributes. -/
theorem c6_no_clamping (s : Session) (p : Patch) (v : ℚ)
    (h : p.saturation = some v) :
    (updateCurrentState s p).currentState.saturation = v ∧
    (commitChange s p).currentState.saturation = v ∧
    (filterChain (updateCurrentState s p).currentState).getD 2
      (FilterOp.saturate 0) = FilterOp.saturate v := by
  have hup : (updateCurrentState s p).currentState.saturation = v := by
    simp [updateCurrentState, merge, h]
  refine ⟨hup, ?_, ?_⟩
  · simp [commitChange, pushToHistory, merge, h]
  · rw [filterChain_getD_two, hup]

/-- Witness for C6 at the fresh session and the `{ saturation: 500 }`
patch. -/
theorem c6_no_clamping_witness :
    pSat500.saturation = some 500 ∧
    (updateCurrentState openSession pSat500).currentState.saturation = 500 ∧
    (filterChain (updateCurrentState openSession pSat500).currentState).getD 2
      (FilterOp.saturate 0) = FilterOp.saturate 500 :=
  ⟨rfl, (c6_no_clamping openSession pSat500 500 rfl).1,
    (c6_no_clamping openSession pSat500 500 rfl).2.2⟩

/-- C7 counterexample: committing the unknown preset `"foo"` is not
rejected — it is recorded verbatim as the new history entry and working
state (there is no `ValidationError` anywhere on this path). -/
theorem c7_validation_cex :
    ((commitChange openSession pFoo).history.getD 1 initialState).filterPreset =
      "foo" ∧
    (commitChange openSession pFoo).currentState.filterPreset = "foo" := by
  decide

/-- C7 amended: an update carrying an unrecognized `filterPreset` string
is accepted without any validation: `commitChange` records the value
verbatim as the newly committed snapshot, and rendering silently falls
back to the bare base tonal chain (exactly as for `none`); `cropRatio` is
confined to its four enumerants by the static type alone, so no runtime
rejection path exists. -/
theorem c7_unknown_preset_accepted (s : Session) (f : String)
    (h : f ∉ knownPresets) :
    (commitChange s { noPatch with filterPreset := some f }).currentState.filterPreset
      = f ∧
    (commitChange s { noPatch with filterPreset := some f }).history.getLast? =
      some ((commitChange s
        { noPatch with filterPreset := some f }).currentState) ∧
    filterChain ((commitChange s
        { noPatch with filterPreset := some f }).currentState) =
      baseStage ((commitChange s
        { noPatch with filterPreset := some f }).currentState) := by
  simp only [knownPresets, List.mem_cons, List.not_mem_nil, or_false,
    not_or] at h
  obtain ⟨-, h1, h2, h3, h4, h5, h6, h7, h8, h9, h10⟩ := h
  have hcur : (commitChange s
      { noPatch with filterPreset := some f }).currentState.filterPreset = f := by
    simp [commitChange, pushToHistory, merge, noPatch]
  refine ⟨hcur, ?_, ?_⟩
  · simp [commitChange, pushToHistory]
  · rw [filterChain_eq, hcur]
    have hnil : presetSuffix f = [] := by
      simp [presetSuffix, h1, h2, h3, h4, h5, h6, h7, h8, h9, h10]
    rw [hnil, List.append_nil]

/-- Witness for C7 with the concrete unknown preset `"foo"`. -/
theorem c7_unknown_preset_accepted_witness :
    "foo" ∉ knownPresets ∧
    (commitChange openSession pFoo).currentState.filterPreset = "foo" ∧
    filterChain ((commitChange openSession pFoo).currentState) =
      baseStage ((commitChange openSession pFoo).currentState) :=
  ⟨by decide, (c7_unknown_preset_accepted openSession "foo" (by decide)).1,
    (c7_unknown_preset_accepted openSession "foo" (by decide)).2.2⟩

/-- C8: for positive source dimensions, any supported crop ratio and any
rotation that is a multiple of 90°, the draw effect's geometry equals the
spec's reference algorithm; concretely a 1000×500 source with ratio 1:1
yields a 500×500 window at (250, 0), and an 800×600 crop rotated by a
cumulative 90° yields a 600×800 bounding box. -/
theorem c8_geometry_matches_spec (W H : ℚ) (ratio : CropRatio) (rot : ℤ)
    (hW : 0 < W) (hH : 0 < H) (hrot : ∃ k : ℤ, rot = 90 * k) :
    resolveGeometry W H ratio rot = specGeometry W H ratio rot ∧
    resolveGeometry 1000 500 CropRatio.ratio1x1 0 =
      { cropX := 250, cropY := 0, cropW := 500, cropH := 500,
        canvasWidth := 500, canvasHeight := 500 } ∧
    (resolveGeometry 800 600 CropRatio.original 90).canvasWidth = 600 ∧
    (resolveGeometry 800 600 CropRatio.original 90).canvasHeight = 800 := by
  refine ⟨?_,
    by norm_num [resolveGeometry, cropWindow, ratioComponents,
      show CropRatio.ratio1x1 ≠ CropRatio.original by decide],
    by norm_num [resolveGeometry, cropWindow, ratioComponents,
      show ((90 : ℤ) % 180 : ℤ) ≠ 0 by decide],
    by norm_num [resolveGeometry, cropWindow, ratioComponents,
      show ((90 : ℤ) % 180 : ℤ) ≠ 0 by decide]⟩
  rcases ratio <;> rfl

/-- Witness for C8 at a 1000×500 source, ratio 1:1 and rotation 90°. -/
theorem c8_geometry_matches_spec_witness :
    (0 : ℚ) < 1000 ∧ (0 : ℚ) < 500 ∧ (∃ k : ℤ, (90 : ℤ) = 90 * k) ∧
    resolveGeometry 1000 500 CropRatio.ratio1x1 90 =
      specGeometry 1000 500 CropRatio.ratio1x1 90 :=
  ⟨by norm_num, by norm_num, ⟨1, by norm_num⟩,
    (c8_geometry_matches_spec 1000 500 CropRatio.ratio1x1 90 (by norm_num)
      (by norm_num) ⟨1, by norm_num⟩).1⟩

/-- C9: the rendered filter chain always starts with the base tonal stage
— brightness, contrast, saturation, in that order — and the remainder is
a fixed suffix determined solely by the preset name; every enumerated
preset other than `none` appends a nonempty such suffix after (never in
place of) the base stage. -/
theorem c9_filter_chain_structure (s : EditorState) :
    filterChain s = baseStage s ++ presetSuffix s.filterPreset ∧
    baseStage s = [FilterOp.brightness s.brightness,
      FilterOp.contrast s.contrast, FilterOp.saturate s.saturation] ∧
    (∀ p ∈ knownPresets, p ≠ "none" → presetSuffix p ≠ []) := by
  refine ⟨filterChain_eq s, rfl, ?_⟩
  intro p hp hne
  have hcases : p = "none" ∨ p = "grayscale" ∨ p = "sepia" ∨ p = "invert" ∨
      p = "warm" ∨ p = "cool" ∨ p = "vintage" ∨ p = "bw-film" ∨
      p = "neo-noir" ∨ p = "polaroid" ∨ p = "dramatic" := by
    simpa [knownPresets] using hp
  rcases hcases with rfl | rfl | rfl | rfl | rfl | rfl | rfl | rfl | rfl |
    rfl | rfl
  · exact absurd rfl hne
  all_goals decide

/-- Witness for C9 at the default state carrying the `sepia` preset. -/
theorem c9_filter_chain_structure_witness :
    filterChain { initialState with filterPreset := "sepia" } =
      baseStage { initialState with filterPreset := "sepia" } ++
        presetSuffix "sepia" ∧
    "sepia" ∈ knownPresets ∧ presetSuffix "sepia" ≠ [] :=
  ⟨(c9_filter_chain_structure { initialState with filterPreset := "sepia" }).1,
    by decide,
    (c9_filter_chain_structure { initialState with filterPreset := "sepia" }).2.2
      "sepia" (by decide) (by decide)⟩

/-- The crop window computed by the non-`original` branch stays inside
the source and realises the requested ratio exactly. -/
lemma cropWindow_bounds (W H rw rh : ℚ) (hW : 0 < W) (hH : 0 < H)
    (hrw : 0 < rw) (hrh : 0 < rh) :
    0 ≤ (cropWindow W H rw rh).1 ∧
    0 ≤ (cropWindow W H rw rh).2.1 ∧
    (cropWindow W H rw rh).1 + (cropWindow W H rw rh).2.2.1 ≤ W ∧
    (cropWindow W H rw rh).2.1 + (cropWindow W H rw rh).2.2.2 ≤ H ∧
    0 < (cropWindow W H rw rh).2.2.1 ∧
    0 < (cropWindow W H rw rh).2.2.2 ∧
    (cropWindow W H rw rh).2.2.1 / (cropWindow W H rw rh).2.2.2 = rw / rh := by
  have hr : 0 < rw / rh := div_pos hrw hrh
  simp only [cropWindow]
  split_ifs with hcmp
  · -- source relatively wider: rw/rh < W/H
    have hkey : rw / rh * H < W := (lt_div_iff₀ hH).mp hcmp
    have hmul : H * (rw / rh) < W := by linarith [mul_comm H (rw / rh)]
    have hcw : 0 < H * (rw / rh) := mul_pos hH hr
    refine ⟨?_, le_refl 0, ?_, ?_, hcw, hH, ?_⟩
    · dsimp only
      linarith
    · dsimp only
      linarith
    · dsimp only
      linarith
    · dsimp only
      rw [mul_comm, mul_div_assoc, div_self (ne_of_gt hH), mul_one]
  · -- source relatively taller (or equal): W/H ≤ rw/rh
    push_neg at hcmp
    have hkey : W ≤ rw / rh * H := (div_le_iff₀ hH).mp hcmp
    have hch : W / (rw / rh) ≤ H := by
      rw [div_le_iff₀ hr]
      linarith [mul_comm (rw / rh) H]
    have hpos : 0 < W / (rw / rh) := div_pos hW hr
    refine ⟨le_refl 0, ?_, ?_, ?_, hW, hpos, ?_⟩
    · dsimp only
      linarith
    · dsimp only
      linarith
    · dsimp only
      linarith
    · dsimp only
      exact div_div_cancel₀ (ne_of_gt hW)

/-- C10: for positive source dimensions and any of the three non-trivial
crop ratios, the crop window computed by the draw effect — evaluated in
exact rational arithmetic — lies entirely inside the source raster, has
positive extent, and realises the requested ratio exactly, so the
renderer never samples outside the source bounds. -/
theorem c10_crop_window_within_source (W H : ℚ) (ratio : CropRatio) (rot : ℤ)
    (hW : 0 < W) (hH : 0 < H) (hne : ratio ≠ CropRatio.original) :
    0 ≤ (resolveGeometry W H ratio rot).cropX ∧
    0 ≤ (resolveGeometry W H ratio rot).cropY ∧
    (resolveGeometry W H ratio rot).cropX +
      (resolveGeometry W H ratio rot).cropW ≤ W ∧
    (resolveGeometry W H ratio rot).cropY +
      (resolveGeometry W H ratio rot).cropH ≤ H ∧
    0 < (resolveGeometry W H ratio rot).cropW ∧
    0 < (resolveGeometry W H ratio rot).cropH ∧
    (resolveGeometry W H ratio rot).cropW /
        (resolveGeometry W H ratio rot).cropH =
      (ratioComponents ratio).1 / (ratioComponents ratio).2 := by
  rcases ratio
  · exact absurd rfl hne
  · simpa [resolveGeometry, ratioComponents,
      show CropRatio.ratio1x1 ≠ CropRatio.original by decide] using
      cropWindow_bounds W H 1 1 hW hH one_pos one_pos
  · simpa [resolveGeometry, ratioComponents,
      show CropRatio.ratio4x3 ≠ CropRatio.original by decide] using
      cropWindow_bounds W H 4 3 hW hH (by norm_num) (by norm_num)
  · simpa [resolveGeometry, ratioComponents,
      show CropRatio.ratio16x9 ≠ CropRatio.original by decide] using
      cropWindow_bounds W H 16 9 hW hH (by norm_num) (by norm_num)

/-- Witness for C10 at a 1000×500 source with ratio 1:1. -/
theorem c10_crop_window_within_source_witness :
    (0 : ℚ) < 1000 ∧ (0 : ℚ) < 500 ∧
    CropRatio.ratio1x1 ≠ CropRatio.original ∧
    (0 ≤ (resolveGeometry 1000 500 CropRatio.ratio1x1 0).cropX ∧
      (resolveGeometry 1000 500 CropRatio.ratio1x1 0).cropX +
        (resolveGeometry 1000 500 CropRatio.ratio1x1 0).cropW ≤ 1000 ∧
      (resolveGeometry 1000 500 CropRatio.ratio1x1 0).cropW /
          (resolveGeometry 1000 500 CropRatio.ratio1x1 0).cropH =
        (ratioComponents CropRatio.ratio1x1).1 /
          (ratioComponents CropRatio.ratio1x1).2) :=
  ⟨by norm_num, by norm_num, by decide,
    (c10_crop_window_within_source 1000 500 CropRatio.ratio1x1 0
      (by norm_num) (by norm_num) (by decide)).1,
    (c10_crop_window_within_source 1000 500 CropRatio.ratio1x1 0
      (by norm_num) (by norm_num) (by decide)).2.2.1,
    (c10_crop_window_within_source 1000 500 CropRatio.ratio1x1 0
      (by norm_num) (by norm_num) (by decide)).2.2.2.2.2.2⟩

end AetherLens
